import Mathlib

/-
Verification of the attendance backend (src/cloned-repo/ATTENDENCE - Copy/backend.py).

Modelling conventions:
* Python strings are lists of characters (`PyStr`); the strings this backend
  handles are ASCII, so `str.upper()` is `Char.toUpper` mapped over the list
  and `str.strip()` drops whitespace from both ends.
* The two database stores and the text-generation service are external
  collaborators: the directory store is a list of rows, the attendance store a
  list of committed insert statements, and the generation service a function
  parameter.  Connections are modelled as available; how many service calls a
  request performs is returned alongside each response.
* A Flask `jsonify(...), code` response is an `HttpResponse` value.
-/

set_option maxRecDepth 40000

namespace AttendanceBackend

/-- A Python string, as the list of its characters. -/
abbrev PyStr := List Char

/-- Python `s.upper()` on the ASCII strings this backend handles. -/
def pyUpper (s : PyStr) : PyStr := s.map Char.toUpper

/-- Python `s.strip()`: drop leading and trailing whitespace. -/
def pyStrip (s : PyStr) : PyStr :=
  ((s.dropWhile Char.isWhitespace).reverse.dropWhile Char.isWhitespace).reverse

/-- Python `needle in hay` substring test. -/
def containsSub (hay needle : PyStr) : Bool := decide (needle <:+: hay)

/-- Python `s.startswith(p)`. -/
def startsWithL (s p : PyStr) : Bool := decide (p <+: s)

/-! ## The two statement checks (backend.py)

`postDraftCheck` is the structural check applied to each freshly drafted
statement inside `generate_attendance_sql` (backend.py:165-169);
`preExecCheck` is the check applied to every statement of a batch inside
`execute_generated_sql` (backend.py:194-205). -/

/-- `expected_columns`, backend.py:165. -/
def expected_columns : List PyStr :=
  [("EMPLOYEE_ID").toList, ("EMPLOYEE_TYPE").toList, ("ATTENDANCE_TYPE").toList,
   ("ATTENDANCE_DATE").toList, ("ATTENDANCE_TIME").toList, ("INSERTED_BY_ID").toList]

/-- The check applied right after drafting, backend.py:166-169: the uppercased
statement must start with `INSERT INTO PMO_DAILY_ATTENDNACE` and contain each
expected column name.  (The statement was already stripped at backend.py:163.) -/
def postDraftCheck (generated_sql : PyStr) : Bool :=
  startsWithL (pyUpper generated_sql) (("INSERT INTO PMO_DAILY_ATTENDNACE").toList) &&
  expected_columns.all (fun col => containsSub (pyUpper generated_sql) col)

/-- `expected_columns_pattern`, backend.py:196. -/
def expected_columns_pattern : PyStr :=
  ("EMPLOYEE_ID, EMPLOYEE_TYPE, ATTENDANCE_TYPE, ATTENDANCE_DATE, ATTENDANCE_TIME, INSERTED_BY_ID").toList

/-- `dangerous_keywords`, backend.py:203. -/
def dangerous_keywords : List PyStr :=
  [("DELETE").toList, ("UPDATE").toList, ("DROP").toList, ("TRUNCATE").toList,
   ("ALTER").toList, ("CREATE").toList, ("GRANT").toList, ("REVOKE").toList,
   ("SELECT").toList, ("UNION").toList, ("JOIN").toList, ("EXEC").toList,
   ("EXECUTE").toList, ("INTO OUTFILE").toList, ("--").toList, ("/*").toList,
   ("*/").toList]

/-- Shape part of the pre-execution validation, backend.py:199-201: the
stripped, uppercased statement must start with
`INSERT INTO PMO_DAILY_ATTENDNACE (`, contain the verbatim column pattern and
contain `) VALUES (`. -/
def preExecShapeOk (sql_query : PyStr) : Bool :=
  startsWithL (pyUpper (pyStrip sql_query)) (("INSERT INTO PMO_DAILY_ATTENDNACE (").toList) &&
  containsSub (pyUpper (pyStrip sql_query)) expected_columns_pattern &&
  containsSub (pyUpper (pyStrip sql_query)) ((") VALUES (").toList)

/-- Keyword denylist part of the pre-execution validation, backend.py:203-205. -/
def preExecKeywordBad (sql_query : PyStr) : Bool :=
  dangerous_keywords.any (fun keyword => containsSub (pyUpper (pyStrip sql_query)) keyword)

/-- The whole pre-execution validation of one statement: it is accepted when
the shape checks hold and no denylisted keyword occurs. -/
def preExecCheck (sql_query : PyStr) : Bool :=
  preExecShapeOk sql_query && !(preExecKeywordBad sql_query)

/-- The example statement from the drafting prompt (backend.py:150) and §8 of
the spec. -/
def litStmt : PyStr :=
  ("INSERT INTO PMO_DAILY_ATTENDNACE (EMPLOYEE_ID, EMPLOYEE_TYPE, ATTENDANCE_TYPE, ATTENDANCE_DATE, ATTENDANCE_TIME, INSERTED_BY_ID) VALUES ('1483', 'Trainee', 'Present', '2025-06-05', '09:00:00', '1483');").toList

/-! ## The batch executor (`execute_generated_sql`, backend.py:181-215) -/

/-- A `jsonify(...), code` pair returned by a handler. -/
inductive HttpResponse where
  | ok (msg : PyStr)
  | badRequest (msg : PyStr)
  | serverError (msg : PyStr)
deriving DecidableEq

/-- ValueError message raised at backend.py:202. -/
def shapeErrMsg (q : PyStr) : PyStr :=
  ("One of the queries does not match the expected INSERT into PMO_DAILY_ATTENDNACE with all required columns: ").toList ++ q

/-- ValueError message raised at backend.py:205. -/
def kwErrMsg (q : PyStr) : PyStr :=
  ("One of the queries contains disallowed keywords, indicating a potential security risk: ").toList ++ q

/-- The 500 payload built in the except branch, backend.py:215. -/
def execErrWrap (e : PyStr) : PyStr :=
  ("Error executing queries: ").toList ++ e ++ (". Please check the generated SQL syntax and data.").toList

/-- The 400 payload for an empty batch, backend.py:185. -/
def noQueriesMsg : PyStr := ("No SQL queries provided for execution").toList

/-- The 200 payload, backend.py:211. -/
def successMsg (n : Nat) : PyStr :=
  ("Successfully executed ").toList ++ (toString n).toList ++
  (" SQL queries. Attendance recorded.").toList

/-- One iteration of the loop at backend.py:194-207: validate the statement
(shape first, then the keyword denylist, each raising a ValueError whose
message quotes the statement) and then run it on the attendance store.
`dbExec q = some e` models `cur.execute` raising an error with text `e`;
`none` models a successful insert. -/
def runStatement (dbExec : PyStr → Option PyStr) (q : PyStr) : Except PyStr Unit :=
  if preExecShapeOk q then
    if preExecKeywordBad q then .error (kwErrMsg q)
    else
      match dbExec q with
      | some e => .error e
      | none => .ok ()
  else .error (shapeErrMsg q)

/-- The `for sql_query in sql_queries` loop, backend.py:194-207: the first
raised error aborts the loop. -/
def runBatch (dbExec : PyStr → Option PyStr) : List PyStr → Except PyStr Unit
  | [] => .ok ()
  | q :: rest =>
    match runStatement dbExec q with
    | .error e => .error e
    | .ok () => runBatch dbExec rest

/-- Outcome of one `execute_generated_sql` request: the response, the committed
rows of the attendance store after the request (a committed row is modelled by
its insert statement), and whether the handler tried to reach the store at
all. -/
structure ExecOutcome where
  response : HttpResponse
  store : List PyStr
  connAttempted : Bool
deriving DecidableEq

/-- The `execute_generated_sql` handler, backend.py:181-215.  An empty (or
absent, defaulted to `[]`) `sql_queries` list returns 400 before any store
interaction.  Otherwise the statements run in one transaction: on full
success `conn.commit()` makes every insert durable, on any raised error
`conn.rollback()` leaves the committed store untouched. -/
def execute_generated_sql (dbExec : PyStr → Option PyStr) (store : List PyStr)
    (sql_queries : List PyStr) : ExecOutcome :=
  if sql_queries.isEmpty then
    { response := .badRequest noQueriesMsg, store := store, connAttempted := false }
  else
    match runBatch dbExec sql_queries with
    | .ok () =>
      { response := .ok (successMsg sql_queries.length),
        store := store ++ sql_queries, connAttempted := true }
    | .error e =>
      { response := .serverError (execErrWrap e), store := store, connAttempted := true }

/-- A statement passes the whole per-statement body of the loop: both
validation steps and the store execution. -/
def statementPasses (dbExec : PyStr → Option PyStr) (q : PyStr) : Bool :=
  preExecShapeOk q && !(preExecKeywordBad q) && (dbExec q).isNone

/-- The message of the error the loop raises on a failing statement. -/
def failureMsg (dbExec : PyStr → Option PyStr) (q : PyStr) : PyStr :=
  if preExecShapeOk q then
    if preExecKeywordBad q then kwErrMsg q else (dbExec q).getD []
  else shapeErrMsg q

/-! ## The drafter (`generate_attendance_sql`, backend.py:109-179) -/

/-- The drafting request body, backend.py:111-116.  The two id lists are read
with default `[]`; the remaining fields are `None` when absent. -/
structure DraftRequest where
  present_employee_ids : List PyStr
  all_employee_ids : List PyStr
  meeting_time_str : Option PyStr
  meeting_date : Option PyStr
  inserted_by_id : Option PyStr

/-- Python truthiness of a list field. -/
def truthyList (l : List PyStr) : Bool := !l.isEmpty

/-- Python truthiness of an optional string field. -/
def truthyOpt : Option PyStr → Bool
  | none => false
  | some s => !s.isEmpty

/-- The `all([...])` guard over the five request fields, backend.py:117. -/
def requiredFieldsOk (r : DraftRequest) : Bool :=
  truthyList r.all_employee_ids && truthyList r.present_employee_ids &&
  truthyOpt r.meeting_time_str && truthyOpt r.meeting_date && truthyOpt r.inserted_by_id

/-- The 400 payload, backend.py:118. -/
def requiredMsg : PyStr :=
  ("All fields (all_employee_ids, present_employee_ids, date, time, inserted by ID) are required.").toList

/-- The per-employee record computed at backend.py:121-123 and interpolated
into the generation prompt (backend.py:125-151): `employee_type` is fixed to
`Trainee` and `attendance_type` is `Present` exactly when the id occurs in
`present_employee_ids`. -/
structure AttendanceDraft where
  employee_id : PyStr
  employee_type : PyStr
  attendance_type : PyStr
  attendance_date : PyStr
  attendance_time : PyStr
  inserted_by_id : PyStr

/-- Build the draft for one employee id, backend.py:121-123. -/
def mkDraft (present_employee_ids : List PyStr) (meeting_date meeting_time inserted_by_id : PyStr)
    (emp_id : PyStr) : AttendanceDraft :=
  { employee_id := emp_id
    employee_type := ("Trainee").toList
    attendance_type :=
      if present_employee_ids.contains emp_id then ("Present").toList else ("Absent").toList
    attendance_date := meeting_date
    attendance_time := meeting_time
    inserted_by_id := inserted_by_id }

/-- ValueError message raised at backend.py:169 when the drafted statement
fails the post-draft check. -/
def invalidSqlMsg (generated_sql : PyStr) : PyStr :=
  ("Groq generated an invalid SQL query. It must be an INSERT into PMO_DAILY_ATTENDNACE and include all required columns. Generated: ").toList ++ generated_sql

/-- The 500 payload built in the except branch, backend.py:176-177. -/
def genFailMsg (emp_id e : PyStr) : PyStr :=
  ("Failed to generate SQL query for employee ").toList ++ emp_id ++ (": ").toList ++ e

/-- The `for emp_id in all_employee_ids` loop, backend.py:120-174.  `gen`
models one generation-service call: `.error e` is a raised transport/service
error with text `e`, `.ok content` the returned message content, which the
code strips (backend.py:163) and then checks (backend.py:165-169).  The first
raised error aborts the loop.  The second component counts the
generation-service calls made. -/
def draftLoop (gen : AttendanceDraft → Except PyStr PyStr)
    (present_employee_ids : List PyStr) (meeting_date meeting_time inserted_by_id : PyStr) :
    List PyStr → Except (PyStr × PyStr) (List PyStr) × Nat
  | [] => (.ok [], 0)
  | emp_id :: rest =>
    match gen (mkDraft present_employee_ids meeting_date meeting_time inserted_by_id emp_id) with
    | .error e => (.error (emp_id, e), 1)
    | .ok content =>
      let generated_sql := pyStrip content
      if postDraftCheck generated_sql then
        match draftLoop gen present_employee_ids meeting_date meeting_time inserted_by_id rest with
        | (.ok sqls, n) => (.ok (generated_sql :: sqls), n + 1)
        | (.error err, n) => (.error err, n + 1)
      else (.error (emp_id, invalidSqlMsg generated_sql), 1)

/-- Response of one `generate_attendance_sql` request. -/
inductive DraftResponse where
  | ok (sql_queries : List PyStr)
  | badRequest (msg : PyStr)
  | serverError (msg : PyStr)
deriving DecidableEq

/-- The `generate_attendance_sql` handler, backend.py:109-179, paired with the
number of generation-service calls the request performed. -/
def generate_attendance_sql (gen : AttendanceDraft → Except PyStr PyStr)
    (r : DraftRequest) : DraftResponse × Nat :=
  if requiredFieldsOk r then
    match draftLoop gen r.present_employee_ids (r.meeting_date.getD [])
        (r.meeting_time_str.getD []) (r.inserted_by_id.getD []) r.all_employee_ids with
    | (.ok sqls, n) => (.ok sqls, n)
    | (.error (emp_id, e), n) => (.serverError (genFailMsg emp_id e), n)
  else (.badRequest requiredMsg, 0)

/-- Whether the per-employee body of the drafting loop succeeds for one id. -/
def draftOk (gen : AttendanceDraft → Except PyStr PyStr)
    (present_employee_ids : List PyStr) (meeting_date meeting_time inserted_by_id : PyStr)
    (emp_id : PyStr) : Bool :=
  match gen (mkDraft present_employee_ids meeting_date meeting_time inserted_by_id emp_id) with
  | .error _ => false
  | .ok content => postDraftCheck (pyStrip content)

/-- The text of the exception the drafting loop hits on a failing id. -/
def draftFailMsg (gen : AttendanceDraft → Except PyStr PyStr)
    (present_employee_ids : List PyStr) (meeting_date meeting_time inserted_by_id : PyStr)
    (emp_id : PyStr) : PyStr :=
  match gen (mkDraft present_employee_ids meeting_date meeting_time inserted_by_id emp_id) with
  | .error e => e
  | .ok content => invalidSqlMsg (pyStrip content)

/-! ## The directory reader (`get_all_employees`, backend.py:92-108) -/

/-- A row of the `employee` directory table. -/
structure Employee where
  id : String
  name : String
deriving DecidableEq

/-- The `get_all_employees` handler, backend.py:92-108.  The rows come back
from the external directory store via
`SELECT id, name FROM employee ORDER BY name ASC` (backend.py:98); the store's
`ORDER BY name ASC` semantics — a reordering of the stored rows that is
nondecreasing in `name` — is modelled as a stable sort of the rows by name. -/
def get_all_employees (store : List Employee) : List Employee :=
  store.mergeSort (fun a b => decide (a.name ≤ b.name))

/-! ## Lemmas about the executor loop -/

lemma runStatement_ok_iff (dbExec : PyStr → Option PyStr) (q : PyStr) :
    runStatement dbExec q = .ok () ↔ statementPasses dbExec q = true := by
  unfold runStatement statementPasses
  cases h1 : preExecShapeOk q
  · simp [h1]
  · cases h2 : preExecKeywordBad q
    · cases h3 : dbExec q <;> simp [h1, h2, h3]
    · simp [h1, h2]

lemma runStatement_error (dbExec : PyStr → Option PyStr) (q : PyStr)
    (h : statementPasses dbExec q = false) :
    runStatement dbExec q = .error (failureMsg dbExec q) := by
  unfold runStatement failureMsg
  unfold statementPasses at h
  cases h1 : preExecShapeOk q
  · simp [h1]
  · cases h2 : preExecKeywordBad q
    · cases h3 : dbExec q with
      | none => rw [h1, h2, h3] at h; simp at h
      | some e => simp [h1, h2, h3]
    · simp [h1, h2]

lemma runBatch_ok_iff (dbExec : PyStr → Option PyStr) (qs : List PyStr) :
    runBatch dbExec qs = .ok () ↔ ∀ q ∈ qs, statementPasses dbExec q = true := by
  induction qs with
  | nil => simp [runBatch]
  | cons q rest ih =>
    cases hq : runStatement dbExec q with
    | ok u =>
      cases u
      have hp := (runStatement_ok_iff dbExec q).mp hq
      simp [runBatch, hq, hp, ih]
    | error e =>
      have hp : statementPasses dbExec q = false := by
        cases h : statementPasses dbExec q
        · rfl
        · rw [(runStatement_ok_iff dbExec q).mpr h] at hq; cases hq
      simp [runBatch, hq, hp]

lemma runBatch_first_error (dbExec : PyStr → Option PyStr) (pre post : List PyStr) (q : PyStr)
    (hpre : ∀ x ∈ pre, statementPasses dbExec x = true)
    (hq : statementPasses dbExec q = false) :
    runBatch dbExec (pre ++ q :: post) = .error (failureMsg dbExec q) := by
  induction pre with
  | nil => simp [runBatch, runStatement_error dbExec q hq]
  | cons x xs ih =>
    have hx := (runStatement_ok_iff dbExec x).mpr (hpre x (List.mem_cons_self x xs))
    simp only [List.cons_append, runBatch, hx]
    exact ih (fun y hy => hpre y (List.mem_cons_of_mem x hy))

/-- C3: for every non-empty batch, a failure of any statement (validation or
execution) leaves the committed attendance store unchanged and the request
fails with a 500; if every statement passes, all inserts commit together. -/
theorem C3_batch_atomicity (dbExec : PyStr → Option PyStr) (store : List PyStr)
    (qs : List PyStr) (hne : qs ≠ []) :
    ((∃ q ∈ qs, statementPasses dbExec q = false) →
      (execute_generated_sql dbExec store qs).store = store ∧
      ∃ e, (execute_generated_sql dbExec store qs).response = .serverError e) ∧
    ((∀ q ∈ qs, statementPasses dbExec q = true) →
      (execute_generated_sql dbExec store qs).store = store ++ qs ∧
      (execute_generated_sql dbExec store qs).response = .ok (successMsg qs.length)) := by
  have hempty : qs.isEmpty = false := by
    cases qs with
    | nil => exact absurd rfl hne
    | cons a l => rfl
  constructor
  · intro ⟨q, hmem, hfail⟩
    have hrb : runBatch dbExec qs ≠ .ok () := by
      intro h
      have := (runBatch_ok_iff dbExec qs).mp h q hmem
      rw [hfail] at this; cases this
    cases hb : runBatch dbExec qs with
    | ok u => cases u; exact absurd hb hrb
    | error e =>
      unfold execute_generated_sql
      rw [hempty, hb]
      exact ⟨rfl, execErrWrap e, rfl⟩
  · intro hall
    have hb := (runBatch_ok_iff dbExec qs).mpr hall
    unfold execute_generated_sql
    rw [hempty, hb]
    exact ⟨rfl, rfl⟩

/-- Witness for C3 at a concrete batch: the single accepted statement commits. -/
theorem C3_witness :
    ([litStmt] ≠ ([] : List PyStr)) ∧
    (execute_generated_sql (fun _ => none) [] [litStmt]).store = [] ++ [litStmt] ∧
    (execute_generated_sql (fun _ => none) [] [litStmt]).response = .ok (successMsg 1) := by
  refine ⟨by simp, ?_⟩
  have h := (C3_batch_atomicity (fun _ => none) [] [litStmt] (by simp)).2
    (by intro q hq; rw [List.mem_singleton] at hq; subst hq; decide)
  exact h

/-- C4: an empty (or absent) `sql_queries` list is answered 400 before the
handler touches the attendance store: no connection attempt, no execution,
store unchanged. -/
theorem C4_empty_batch_400 (dbExec : PyStr → Option PyStr) (store : List PyStr) :
    execute_generated_sql dbExec store [] =
      { response := .badRequest noQueriesMsg, store := store, connAttempted := false } := rfl

/-- A statement that fails the shape validation (and quotes no keyword). -/
def badStmt : PyStr := ("foo").toList

/-- Counterexample to C6: two batches whose first failing statement sits at
position 0 and at position 1 produce byte-identical outcomes, so the returned
error cannot name the failing index; it only quotes the failing statement. -/
theorem C6_counterexample :
    execute_generated_sql (fun _ => none) [] [badStmt, litStmt] =
      execute_generated_sql (fun _ => none) [] [litStmt, badStmt] ∧
    statementPasses (fun _ => none) badStmt = false ∧
    statementPasses (fun _ => none) litStmt = true := by
  refine ⟨?_, by decide, by decide⟩
  decide

/-- C6 (amended): when the statement at position `pre.length` is the first to
fail, the 500 error wraps the message of that statement's failure — the
validation messages quote the statement text, an execution failure carries the
store's error text — and no index; the store stays unchanged. -/
theorem C6_amended_error_names_statement (dbExec : PyStr → Option PyStr) (store : List PyStr)
    (pre post : List PyStr) (q : PyStr)
    (hpre : ∀ x ∈ pre, statementPasses dbExec x = true)
    (hq : statementPasses dbExec q = false) :
    (execute_generated_sql dbExec store (pre ++ q :: post)).response =
      .serverError (execErrWrap (failureMsg dbExec q)) ∧
    (execute_generated_sql dbExec store (pre ++ q :: post)).store = store := by
  have hempty : (pre ++ q :: post).isEmpty = false := by
    cases pre with
    | nil => rfl
    | cons a l => rfl
  have hb := runBatch_first_error dbExec pre post q hpre hq
  unfold execute_generated_sql
  rw [hempty, hb]
  exact ⟨rfl, rfl⟩

/-- Witness for C6's amended theorem: in the batch `[litStmt, badStmt]` the
second statement is the first failure; the error quotes its text. -/
theorem C6_witness :
    (execute_generated_sql (fun _ => none) [] [litStmt, badStmt]).response =
      .serverError (execErrWrap (failureMsg (fun _ => none) badStmt)) ∧
    (execute_generated_sql (fun _ => none) [] [litStmt, badStmt]).store = [] := by
  exact C6_amended_error_names_statement (fun _ => none) [] [litStmt] [] badStmt
    (by intro x hx; rw [List.mem_singleton] at hx; subst hx; decide) (by decide)

/-! ## Lemmas about the two checks -/

lemma sub_dropWhile_of_head (p : Char → Bool) (c : Char) (t : List Char) (hc : p c = false) :
    ∀ (u v : List Char), (c :: t) <:+: List.dropWhile p (u ++ (c :: t) ++ v)
  | [], v => by
    rw [List.nil_append, List.cons_append, List.dropWhile_cons, hc]
    simp only [Bool.false_eq_true, if_false]
    exact ⟨[], v, by simp⟩
  | x :: u, v => by
    simp only [List.cons_append]
    rw [List.dropWhile_cons]
    cases hx : p x
    · simp only [Bool.false_eq_true, if_false]
      exact ⟨x :: u, v, by simp⟩
    · simp only [if_true]
      exact sub_dropWhile_of_head p c t hc u v

lemma sub_pyStrip {k s : PyStr} (c c' : Char) (t t' : PyStr)
    (hk : k = c :: t) (hk' : k.reverse = c' :: t')
    (hc : c.isWhitespace = false) (hc' : c'.isWhitespace = false)
    (h : k <:+: s) : k <:+: pyStrip s := by
  obtain ⟨u, v, huv⟩ := h
  have h1 : k <:+: s.dropWhile Char.isWhitespace := by
    rw [← huv, hk]
    exact sub_dropWhile_of_head Char.isWhitespace c t hc u v
  obtain ⟨u1, v1, hu1⟩ := h1
  have hrev : v1.reverse ++ k.reverse ++ u1.reverse = (s.dropWhile Char.isWhitespace).reverse := by
    rw [← hu1]
    simp [List.reverse_append]
  have h2 : k.reverse <:+: ((s.dropWhile Char.isWhitespace).reverse).dropWhile Char.isWhitespace := by
    rw [← hrev, hk']
    exact sub_dropWhile_of_head Char.isWhitespace c' t' hc' v1.reverse u1.reverse
  obtain ⟨u2, v2, hu2⟩ := h2
  refine ⟨v2.reverse, u2.reverse, ?_⟩
  unfold pyStrip
  rw [← hu2]
  simp [List.reverse_append]

lemma keyword_facts :
    ∀ k ∈ dangerous_keywords, k ≠ [] ∧ k.headI.isWhitespace = false ∧
      k.reverse.headI.isWhitespace = false ∧ pyUpper k = k := by decide

lemma keyword_sub_insert (k a b : PyStr) (hk : k ∈ dangerous_keywords) :
    k <:+: pyUpper (pyStrip (a ++ k ++ b)) := by
  obtain ⟨hne, hh, hl, hup⟩ := keyword_facts k hk
  rcases k with - | ⟨c, t⟩
  · exact absurd rfl hne
  rcases hrc : (c :: t).reverse with - | ⟨c', t'⟩
  · simp at hrc
  have hc : c.isWhitespace = false := by simpa [List.headI] using hh
  have hc' : c'.isWhitespace = false := by
    rw [hrc] at hl
    simpa [List.headI] using hl
  have h0 : (c :: t) <:+: a ++ (c :: t) ++ b := ⟨a, b, rfl⟩
  obtain ⟨u, v, huv⟩ := sub_pyStrip c c' t t' rfl hrc hc hc' h0
  refine ⟨pyUpper u, pyUpper v, ?_⟩
  rw [← huv]
  unfold pyUpper
  simp only [List.map_append]
  have hupl : (c :: t).map Char.toUpper = c :: t := hup
  rw [hupl]

lemma preExec_reject_of_keyword {k s : PyStr} (hk : k ∈ dangerous_keywords)
    (h : k <:+: pyUpper (pyStrip s)) : preExecCheck s = false := by
  have hbad : preExecKeywordBad s = true := by
    unfold preExecKeywordBad
    rw [List.any_eq_true]
    refine ⟨k, hk, ?_⟩
    unfold containsSub
    exact decide_eq_true h
  unfold preExecCheck
  rw [hbad]
  simp

/-- C5: the pre-execution validator accepts the literal example statement, and
inserting any denylisted keyword at any position of that statement yields a
statement it rejects. -/
theorem C5_validator_literal_and_denylist :
    preExecCheck litStmt = true ∧
    ∀ k ∈ dangerous_keywords, ∀ i ≤ litStmt.length,
      preExecCheck (litStmt.take i ++ k ++ litStmt.drop i) = false := by
  refine ⟨by decide, ?_⟩
  intro k hk i _
  exact preExec_reject_of_keyword hk (keyword_sub_insert k (litStmt.take i) (litStmt.drop i) hk)

/-- Witness for C5: injecting `DROP` at position 5 of the accepted literal is
rejected. -/
theorem C5_witness :
    preExecCheck litStmt = true ∧
    preExecCheck (litStmt.take 5 ++ ("DROP").toList ++ litStmt.drop 5) = false :=
  ⟨C5_validator_literal_and_denylist.1,
   C5_validator_literal_and_denylist.2 (("DROP").toList) (by decide) 5 (by decide)⟩

/-- A statement the post-draft check accepts and the pre-execution check
rejects: the accepted literal with a second, denylisted statement appended. -/
def stmtWithDrop : PyStr := litStmt ++ (" DROP TABLE employee;").toList

/-- Counterexample to C2: the two validation sites do not accept the same
statements.  `stmtWithDrop` passes the post-draft check (right text start, all
six column names present) but fails the pre-execution check (denylist). -/
theorem C2_counterexample :
    postDraftCheck stmtWithDrop = true ∧ preExecCheck stmtWithDrop = false := by
  constructor
  · decide
  · decide

/-- C2 (amended): the two checks are not extensionally equal — the post-draft
check tests neither the `(` after the table name, nor the verbatim column
pattern, nor `) VALUES (`, nor the keyword denylist.  What does hold: on
whitespace-stripped statements the pre-execution check is the stronger one —
every statement it accepts also passes the post-draft check. -/
theorem C2_amended_checks (s : PyStr) (hs : pyStrip s = s) (h : preExecCheck s = true) :
    postDraftCheck s = true := by
  unfold preExecCheck at h
  rw [Bool.and_eq_true] at h
  obtain ⟨hshape, -⟩ := h
  unfold preExecShapeOk at hshape
  rw [hs] at hshape
  rw [Bool.and_eq_true, Bool.and_eq_true] at hshape
  obtain ⟨⟨hstart, hpat⟩, -⟩ := hshape
  have hstart' : (("INSERT INTO PMO_DAILY_ATTENDNACE (").toList) <+: pyUpper s :=
    of_decide_eq_true hstart
  have hshort : (("INSERT INTO PMO_DAILY_ATTENDNACE").toList) <+:
      (("INSERT INTO PMO_DAILY_ATTENDNACE (").toList) := by decide
  have h1 : startsWithL (pyUpper s) (("INSERT INTO PMO_DAILY_ATTENDNACE").toList) = true :=
    decide_eq_true (List.IsPrefix.trans hshort hstart')
  have hpat' : expected_columns_pattern <:+: pyUpper s := of_decide_eq_true hpat
  have h2 : expected_columns.all (fun col => containsSub (pyUpper s) col) = true := by
    rw [List.all_eq_true]
    intro col hcol
    have hcp : col <:+: expected_columns_pattern := by
      fin_cases hcol <;> decide
    unfold containsSub
    exact decide_eq_true (List.IsInfix.trans hcp hpat')
  unfold postDraftCheck
  rw [Bool.and_eq_true]
  exact ⟨h1, h2⟩

/-- Witness for C2's amended theorem at the accepted literal statement. -/
theorem C2_witness :
    pyStrip litStmt = litStmt ∧ preExecCheck litStmt = true ∧ postDraftCheck litStmt = true :=
  ⟨by decide, by decide, C2_amended_checks litStmt (by decide) (by decide)⟩

/-! ## Lemmas about the drafting loop -/

lemma truthyList_ne_nil {l : List PyStr} (h : l ≠ []) : truthyList l = true := by
  cases l with
  | nil => exact absurd rfl h
  | cons a t => rfl

lemma truthyOpt_some_ne_nil {s : PyStr} (h : s ≠ []) : truthyOpt (some s) = true := by
  cases s with
  | nil => exact absurd rfl h
  | cons a t => rfl

lemma draftLoop_all_ok (render : AttendanceDraft → PyStr) (present : List PyStr)
    (md mt ib : PyStr) (A : List PyStr)
    (hgood : ∀ d, postDraftCheck (pyStrip (render d)) = true) :
    draftLoop (fun d => .ok (render d)) present md mt ib A =
      (.ok (A.map (fun emp_id => pyStrip (render (mkDraft present md mt ib emp_id)))),
       A.length) := by
  induction A with
  | nil => rfl
  | cons e rest ih =>
    rw [draftLoop]
    simp only [hgood (mkDraft present md mt ib e), if_true, ih, List.map_cons, List.length_cons]

lemma draftLoop_first_fail (gen : AttendanceDraft → Except PyStr PyStr)
    (present : List PyStr) (md mt ib : PyStr) (pre post : List PyStr) (emp_id : PyStr)
    (hpre : ∀ x ∈ pre, draftOk gen present md mt ib x = true)
    (hfail : draftOk gen present md mt ib emp_id = false) :
    draftLoop gen present md mt ib (pre ++ emp_id :: post) =
      (.error (emp_id, draftFailMsg gen present md mt ib emp_id), pre.length + 1) := by
  induction pre with
  | nil =>
    simp only [List.nil_append, List.length_nil]
    rw [draftLoop]
    unfold draftOk at hfail
    unfold draftFailMsg
    cases hg : gen (mkDraft present md mt ib emp_id) with
    | error e => rfl
    | ok content =>
      rw [hg] at hfail
      have hf : postDraftCheck (pyStrip content) = false := hfail
      simp [hf]
  | cons x xs ih =>
    have hx := hpre x (List.mem_cons_self x xs)
    unfold draftOk at hx
    simp only [List.cons_append, List.length_cons]
    rw [draftLoop]
    cases hg : gen (mkDraft present md mt ib x) with
    | error e =>
      rw [hg] at hx
      exact absurd (hx : false = true) Bool.false_ne_true
    | ok content =>
      rw [hg] at hx
      have hx' : postDraftCheck (pyStrip content) = true := hx
      rw [ih (fun y hy => hpre y (List.mem_cons_of_mem x hy))]
      simp [hx']

/-- C8: a drafting request missing any required field (the list fields default
to `[]` when absent, the scalar fields to `None`) is answered 400, and the
generation service is not called. -/
theorem C8_missing_field_400 (gen : AttendanceDraft → Except PyStr PyStr) (r : DraftRequest)
    (h : r.all_employee_ids = [] ∨ r.present_employee_ids = [] ∨
         r.meeting_time_str = none ∨ r.meeting_date = none ∨ r.inserted_by_id = none) :
    generate_attendance_sql gen r = (.badRequest requiredMsg, 0) := by
  have hreq : requiredFieldsOk r = false := by
    unfold requiredFieldsOk truthyList truthyOpt
    rcases h with h | h | h | h | h <;> rw [h] <;> simp
  unfold generate_attendance_sql
  rw [hreq]
  simp

/-- A drafting request with `meeting_time_str` absent. -/
def rMissingTime : DraftRequest :=
  { present_employee_ids := [("1483").toList]
    all_employee_ids := [("1483").toList]
    meeting_time_str := none
    meeting_date := some (("2025-06-05").toList)
    inserted_by_id := some (("1483").toList) }

/-- Witness for C8 at a request with its meeting time missing. -/
theorem C8_witness :
    generate_attendance_sql (fun _ => .ok litStmt) rMissingTime = (.badRequest requiredMsg, 0) :=
  C8_missing_field_400 (fun _ => .ok litStmt) rMissingTime (Or.inr (Or.inr (Or.inl rfl)))

/-- C10: the 400 required-fields guard also fires on supplied-but-falsy
fields: an empty id list or an empty string in any scalar field, so a request
marking zero employees present is rejected rather than drafted all-Absent. -/
theorem C10_falsy_field_400 (gen : AttendanceDraft → Except PyStr PyStr) (r : DraftRequest)
    (h : r.present_employee_ids = [] ∨ r.all_employee_ids = [] ∨
         r.meeting_time_str = some [] ∨ r.meeting_date = some [] ∨ r.inserted_by_id = some []) :
    generate_attendance_sql gen r = (.badRequest requiredMsg, 0) := by
  have hreq : requiredFieldsOk r = false := by
    unfold requiredFieldsOk truthyList truthyOpt
    rcases h with h | h | h | h | h <;> rw [h] <;> simp
  unfold generate_attendance_sql
  rw [hreq]
  simp

/-- A drafting request marking zero employees present; its other fields are
well-formed. -/
def rEmptyPresent : DraftRequest :=
  { present_employee_ids := []
    all_employee_ids := [("1483").toList]
    meeting_time_str := some (("09:00:00").toList)
    meeting_date := some (("2025-06-05").toList)
    inserted_by_id := some (("1483").toList) }

/-- Witness for C10 at a request whose present-list is empty. -/
theorem C10_witness :
    generate_attendance_sql (fun _ => .ok litStmt) rEmptyPresent = (.badRequest requiredMsg, 0) :=
  C10_falsy_field_400 (fun _ => .ok litStmt) rEmptyPresent (Or.inl rfl)

/-- Counterexample to C1: `P = ∅` is a subset of `A = ["1483"]` and the
generation service (modelled as constantly returning the accepted literal)
passes the post-draft check, yet the request is answered 400 with no
statements — not with `|A| = 1` statements as the claim demands. -/
theorem C1_counterexample :
    postDraftCheck (pyStrip litStmt) = true ∧
    rEmptyPresent.all_employee_ids.length = 1 ∧
    generate_attendance_sql (fun _ => .ok litStmt) rEmptyPresent = (.badRequest requiredMsg, 0) :=
  ⟨by decide, rfl, rfl⟩

/-- C1 (amended): for every id list `A` and nonempty present-subset `P ⊆ A`
(the remaining fields supplied and non-empty), with the generation service
modelled as a function whose outputs pass the post-draft check, drafting
returns 200 with exactly one statement per id of `A`, in order — statement
`i` being the stripped service output for the draft of `A i` — after exactly
`|A|` service calls; and the draft for an id carries attendance type
`Present` exactly when the id is in `P`, `Absent` otherwise. -/
theorem C1_amended_draft_batch (render : AttendanceDraft → PyStr) (r : DraftRequest)
    (mt md ib : PyStr)
    (hmt : r.meeting_time_str = some mt) (hmd : r.meeting_date = some md)
    (hib : r.inserted_by_id = some ib)
    (hmt' : mt ≠ []) (hmd' : md ≠ []) (hib' : ib ≠ [])
    (hP : r.present_employee_ids ≠ [])
    (hsub : ∀ x ∈ r.present_employee_ids, x ∈ r.all_employee_ids)
    (hgood : ∀ d, postDraftCheck (pyStrip (render d)) = true) :
    generate_attendance_sql (fun d => .ok (render d)) r =
      (.ok (r.all_employee_ids.map
          (fun emp_id => pyStrip (render (mkDraft r.present_employee_ids md mt ib emp_id)))),
        r.all_employee_ids.length) ∧
    ∀ emp_id,
      (emp_id ∈ r.present_employee_ids →
        (mkDraft r.present_employee_ids md mt ib emp_id).attendance_type = ("Present").toList) ∧
      (emp_id ∉ r.present_employee_ids →
        (mkDraft r.present_employee_ids md mt ib emp_id).attendance_type = ("Absent").toList) := by
  constructor
  · have hall : r.all_employee_ids ≠ [] := by
      rcases hP' : r.present_employee_ids with - | ⟨p, ps⟩
      · exact absurd hP' hP
      · exact List.ne_nil_of_mem (hsub p (by rw [hP']; exact List.mem_cons_self p ps))
    have hreq : requiredFieldsOk r = true := by
      unfold requiredFieldsOk
      rw [hmt, hmd, hib, truthyList_ne_nil hall, truthyList_ne_nil hP,
        truthyOpt_some_ne_nil hmt', truthyOpt_some_ne_nil hmd', truthyOpt_some_ne_nil hib']
      rfl
    unfold generate_attendance_sql
    rw [hreq, hmt, hmd, hib]
    simp only [Option.getD_some, if_true]
    rw [draftLoop_all_ok render r.present_employee_ids md mt ib r.all_employee_ids hgood]
  · intro emp_id
    constructor
    · intro hmem
      have hc : r.present_employee_ids.contains emp_id = true :=
        List.elem_eq_true_of_mem hmem
      simp only [mkDraft]
      rw [if_pos hc]
    · intro hmem
      have hc : ¬ (r.present_employee_ids.contains emp_id = true) := by
        intro h
        exact absurd (List.elem_iff.mp h) hmem
      simp only [mkDraft]
      rw [if_neg hc]

/-- A drafting request with one id, marked present. -/
def rGoodReq : DraftRequest :=
  { present_employee_ids := [("1483").toList]
    all_employee_ids := [("1483").toList]
    meeting_time_str := some (("09:00:00").toList)
    meeting_date := some (("2025-06-05").toList)
    inserted_by_id := some (("1483").toList) }

/-- Witness for C1's amended theorem at a one-id request. -/
theorem C1_witness :
    generate_attendance_sql (fun _ => .ok litStmt) rGoodReq = (.ok [pyStrip litStmt], 1) ∧
    (mkDraft rGoodReq.present_employee_ids (("2025-06-05").toList) (("09:00:00").toList)
        (("1483").toList) (("1483").toList)).attendance_type = ("Present").toList := by
  have hgood : ∀ d, postDraftCheck (pyStrip ((fun _ : AttendanceDraft => litStmt) d)) = true := by
    intro d
    show postDraftCheck (pyStrip litStmt) = true
    decide
  have h := C1_amended_draft_batch (fun _ => litStmt) rGoodReq
    (("09:00:00").toList) (("2025-06-05").toList) (("1483").toList)
    rfl rfl rfl (by decide) (by decide) (by decide) (by decide)
    (by intro x hx; exact hx) hgood
  exact ⟨h.1, (h.2 (("1483").toList)).1 (List.mem_singleton.mpr rfl)⟩

/-- C9: drafting is fail-fast and all-or-nothing — when the id at position
`pre.length` is the first whose generation call errors or whose drafted
statement fails the post-draft check, the whole request is answered 500 with
an error naming that id, after exactly `pre.length + 1` service calls (so no
id after it is drafted), and no statement list is returned. -/
theorem C9_fail_fast (gen : AttendanceDraft → Except PyStr PyStr) (r : DraftRequest)
    (mt md ib : PyStr) (pre post : List PyStr) (emp_id : PyStr)
    (hmt : r.meeting_time_str = some mt) (hmd : r.meeting_date = some md)
    (hib : r.inserted_by_id = some ib)
    (hmt' : mt ≠ []) (hmd' : md ≠ []) (hib' : ib ≠ [])
    (hP : r.present_employee_ids ≠ [])
    (hA : r.all_employee_ids = pre ++ emp_id :: post)
    (hpre : ∀ x ∈ pre, draftOk gen r.present_employee_ids md mt ib x = true)
    (hfail : draftOk gen r.present_employee_ids md mt ib emp_id = false) :
    generate_attendance_sql gen r =
      (.serverError (genFailMsg emp_id
          (draftFailMsg gen r.present_employee_ids md mt ib emp_id)),
        pre.length + 1) := by
  have hall : r.all_employee_ids ≠ [] := by
    rw [hA]
    cases pre <;> simp
  have hreq : requiredFieldsOk r = true := by
    unfold requiredFieldsOk
    rw [hmt, hmd, hib, truthyList_ne_nil hall, truthyList_ne_nil hP,
      truthyOpt_some_ne_nil hmt', truthyOpt_some_ne_nil hmd', truthyOpt_some_ne_nil hib']
    rfl
  unfold generate_attendance_sql
  rw [hreq, hmt, hmd, hib]
  simp only [Option.getD_some, if_true]
  rw [hA, draftLoop_first_fail gen r.present_employee_ids md mt ib pre post emp_id hpre hfail]

/-- Witness for C9: a one-id request whose only generation call raises. -/
theorem C9_witness :
    generate_attendance_sql (fun _ => .error (("boom").toList)) rGoodReq =
      (.serverError (genFailMsg (("1483").toList) (("boom").toList)), 1) := by
  have h := C9_fail_fast (fun _ => .error (("boom").toList)) rGoodReq
    (("09:00:00").toList) (("2025-06-05").toList) (("1483").toList)
    [] [] (("1483").toList)
    rfl rfl rfl (by decide) (by decide) (by decide) (by decide) rfl
    (by intro x hx; cases hx) rfl
  exact h

/-- C7: for every state of the directory store, the listing returns all rows
(a permutation of the store) ordered by name ascending. -/
theorem C7_listing_sorted_perm (store : List Employee) :
    (get_all_employees store).Pairwise (fun a b => a.name ≤ b.name) ∧
    List.Perm (get_all_employees store) store := by
  constructor
  · have h : (store.mergeSort (fun a b => decide (a.name ≤ b.name))).Pairwise
        (fun a b : Employee => decide (a.name ≤ b.name)) :=
      List.sorted_mergeSort
        (fun a b c hab hbc => by
          simp only [decide_eq_true_eq] at *
          exact le_trans hab hbc)
        (fun a b => by
          simp only [Bool.or_eq_true, decide_eq_true_eq]
          exact le_total a.name b.name)
        store
    exact h.imp (fun hab => by simpa using hab)
  · exact List.mergeSort_perm store _

end AttendanceBackend
